import Mathlib

/-!
Shallow embedding of the AFScorecard scoring engine.

The client-side engine lives in `src/App.tsx` (the inlined
`src/afScorecard.ts` module): `getPoints`, `computeCategoryScore`,
`computeMemberAFScore`, together with the fixed category weights and the
point rubric.  The server-side cascading recompute lives in
`src/server.js` (`recomputeScoresForMember`).  Numbers are modelled as
rationals; the TypeScript `null` score becomes `Option`'s `none`; the
optional `congressFilter` argument becomes an `Option Nat`, and the
JavaScript truthiness test `if (congressFilter && ...)` is embedded
faithfully (a filter of `0` is falsy and therefore ignored).
-/

namespace AFScorecard

inductive CategoryId : Type
  | IMMIGRATION
  | FOREIGN_AID
  | TAXES_TRADE
  | HEALTHCARE
  | INSURANCE
  deriving DecidableEq, Repr

inductive Chamber : Type
  | House
  | Senate
  deriving DecidableEq, Repr

inductive VoteChoice : Type
  | YES
  | NO
  | ABSENT
  deriving DecidableEq, Repr

structure Vote : Type where
  id : String
  congress : Nat
  chamber : Chamber
  date : String
  category : CategoryId
  afPosition : VoteChoice
  importanceWeight : ℚ
  deriving DecidableEq, Repr

structure MemberVote : Type where
  voteId : String
  memberId : String
  vote : VoteChoice
  deriving DecidableEq, Repr

structure MemberScoreResult : Type where
  memberId : String
  perCategory : CategoryId → Option ℚ
  overall : Option ℚ

/-- `CATEGORY_WEIGHTS` from `src/App.tsx`. -/
def CATEGORY_WEIGHTS : CategoryId → ℚ
  | CategoryId.IMMIGRATION => 3/10
  | CategoryId.FOREIGN_AID => 3/10
  | CategoryId.TAXES_TRADE => 2/10
  | CategoryId.HEALTHCARE => 1/10
  | CategoryId.INSURANCE => 1/10

def ALIGN_POINTS : ℚ := 1
def OPPOSE_POINTS : ℚ := 0
def ABSENCE_POINTS : ℚ := 1/4

/-- `getPoints` from `src/App.tsx`: absent → 0.25, match → 1.0, else 0.0. -/
def getPoints (afPosition : VoteChoice) (vote : VoteChoice) : ℚ :=
  if vote = VoteChoice.ABSENT then ABSENCE_POINTS
  else if vote = afPosition then ALIGN_POINTS
  else OPPOSE_POINTS

/-- The vote-selection test of `computeCategoryScore` (`allVotes.filter`):
keep votes of the requested category; when the congress filter is truthy
(present and nonzero, per the JS `congressFilter &&` test) additionally
require an equal congress number. -/
def selectVote (category : CategoryId) (congressFilter : Option Nat)
    (v : Vote) : Bool :=
  if v.category ≠ category then false
  else
    match congressFilter with
    | none => true
    | some c => if c ≠ 0 ∧ v.congress ≠ c then false else true

/-- The selected subset of the vote catalog. -/
def selectedVotes (category : CategoryId) (allVotes : List Vote)
    (congressFilter : Option Nat) : List Vote :=
  allVotes.filter (selectVote category congressFilter)

/-- The `allMemberVotes.find(...)` lookup: first record matching
`(voteId, memberId)`, in list order. -/
def lookupMemberVote (memberId : String) (allMemberVotes : List MemberVote)
    (voteId : String) : Option MemberVote :=
  allMemberVotes.find? (fun m => m.voteId == voteId && m.memberId == memberId)

/-- The member's effective choice on a vote: the first matching record's
choice, or `ABSENT` when no record matches (`?? { vote: "ABSENT" }`). -/
def effectiveChoice (memberId : String) (allMemberVotes : List MemberVote)
    (voteId : String) : VoteChoice :=
  match lookupMemberVote memberId allMemberVotes voteId with
  | some m => m.vote
  | none => VoteChoice.ABSENT

/-- Point value the loop body assigns to one selected vote. -/
def votePoints (memberId : String) (allMemberVotes : List MemberVote)
    (v : Vote) : ℚ :=
  getPoints v.afPosition (effectiveChoice memberId allMemberVotes v.id)

/-- The `numerator` accumulator of `computeCategoryScore`
(`numerator += points * vote.importanceWeight`). -/
def numeratorAcc (memberId : String) (allMemberVotes : List MemberVote)
    (votes : List Vote) : ℚ :=
  votes.foldl
    (fun acc v => acc + votePoints memberId allMemberVotes v * v.importanceWeight) 0

/-- The `denominator` accumulator of `computeCategoryScore`
(`denominator += 1.0 * vote.importanceWeight`). -/
def denominatorAcc (votes : List Vote) : ℚ :=
  votes.foldl (fun acc v => acc + 1 * v.importanceWeight) 0

/-- `computeCategoryScore` from `src/App.tsx`. -/
def computeCategoryScore (memberId : String) (category : CategoryId)
    (allVotes : List Vote) (allMemberVotes : List MemberVote)
    (congressFilter : Option Nat) : Option ℚ :=
  let votes := selectedVotes category allVotes congressFilter
  if votes.length = 0 then none
  else
    let numerator := numeratorAcc memberId allMemberVotes votes
    let denominator := denominatorAcc votes
    if denominator = 0 then none
    else some (numerator / denominator * 100)

/-- The fixed category list of `computeMemberAFScore`. -/
def categoriesList : List CategoryId :=
  [CategoryId.IMMIGRATION, CategoryId.FOREIGN_AID, CategoryId.TAXES_TRADE,
   CategoryId.HEALTHCARE, CategoryId.INSURANCE]

/-- `computeMemberAFScore` from `src/App.tsx`: per-category scores, then an
overall weighted average renormalized to the categories with data. -/
def computeMemberAFScore (memberId : String) (allVotes : List Vote)
    (allMemberVotes : List MemberVote) (congressFilter : Option Nat) :
    MemberScoreResult :=
  let perCategory : CategoryId → Option ℚ := fun cat =>
    computeCategoryScore memberId cat allVotes allMemberVotes congressFilter
  let categoriesWithScore := categoriesList.filter (fun c => (perCategory c).isSome)
  if categoriesWithScore.length = 0 then
    { memberId := memberId, perCategory := perCategory, overall := none }
  else
    let weightedSum := categoriesWithScore.foldl
      (fun acc cat => acc + (perCategory cat).getD 0 / 100 * CATEGORY_WEIGHTS cat) 0
    let totalWeight := categoriesWithScore.foldl
      (fun acc cat => acc + CATEGORY_WEIGHTS cat) 0
    { memberId := memberId, perCategory := perCategory,
      overall := some (weightedSum / totalWeight * 100) }

/-! Specification-side restatements, used to compare the implementation
against the spec's wording (sums instead of the code's accumulator loop). -/

/-- Point rubric as the specification words it: 0.25 when the member's
choice is Absent, 1.0 when it equals the reference position, 0.0 when it
is the opposite definite choice. -/
def claimPoints (referencePosition : VoteChoice) (choice : VoteChoice) : ℚ :=
  if choice = VoteChoice.ABSENT then 1/4
  else if choice = referencePosition then 1
  else 0

/-- Spec-side numerator: sum over the selected votes of
`points * importanceWeight`. -/
def sumWeightedPoints (memberId : String) (allMemberVotes : List MemberVote)
    (votes : List Vote) : ℚ :=
  (votes.map (fun v =>
    claimPoints v.afPosition (effectiveChoice memberId allMemberVotes v.id) *
      v.importanceWeight)).sum

/-- Spec-side denominator: sum of the selected votes' importance weights. -/
def sumWeights (votes : List Vote) : ℚ :=
  (votes.map (fun v => v.importanceWeight)).sum

/-- Spec-side list of categories that received a numeric score. -/
def scoredCategories (perCategory : CategoryId → Option ℚ) : List CategoryId :=
  categoriesList.filter (fun c => (perCategory c).isSome)

/-- Spec-side overall numerator: `Σ(categoryScore/100 * weight)` over the
categories with a numeric score. -/
def catWeightedSum (perCategory : CategoryId → Option ℚ) : ℚ :=
  ((scoredCategories perCategory).map
    (fun c => (perCategory c).getD 0 / 100 * CATEGORY_WEIGHTS c)).sum

/-- Spec-side overall denominator: `Σ(weight)` over the same categories. -/
def catTotalWeight (perCategory : CategoryId → Option ℚ) : ℚ :=
  ((scoredCategories perCategory).map (fun c => CATEGORY_WEIGHTS c)).sum

/-- The per-category score map that `computeMemberAFScore` builds. -/
def perCategoryOf (m : String) (av : List Vote) (amv : List MemberVote)
    (f : Option Nat) : CategoryId → Option ℚ :=
  fun cat => computeCategoryScore m cat av amv f

/-! Server-side cascading recompute, `recomputeScoresForMember` in
`src/server.js`.  The SQL query joins each of the member's vote records
with its bill; a row carries the bill's `af_position` (a nullable text
column, so an `Option String`, with the JS `!afPos` test also treating the
empty string as missing), the recorded `vote` text, and the
`is_current_congress` flag. -/

structure ServerVoteRow : Type where
  afPosition : Option String
  vote : String
  isCurrent : Bool
  deriving DecidableEq, Repr

structure ServerTally : Type where
  lifetimeCorrect : Nat
  lifetimeTotal : Nat
  currentCorrect : Nat
  currentTotal : Nat
  deriving DecidableEq, Repr

/-- One iteration of the row loop in `recomputeScoresForMember`:
skip rows with no (or "Neither") bill position, skip votes other than
"Approved"/"Opposed", otherwise bump the unweighted tallies. -/
def serverTallyStep (t : ServerTally) (row : ServerVoteRow) : ServerTally :=
  let afPosMissing : Bool :=
    match row.afPosition with
    | none => true
    | some s => s == ""
  if afPosMissing || row.afPosition == some "Neither" then t
  else if row.vote ≠ "Approved" ∧ row.vote ≠ "Opposed" then t
  else
    let aligned : Bool :=
      (row.afPosition == some "America First" && row.vote == "Approved") ||
      (row.afPosition == some "Anti-America First" && row.vote == "Opposed")
    let t1 : ServerTally :=
      { t with
        lifetimeTotal := t.lifetimeTotal + 1,
        lifetimeCorrect := if aligned then t.lifetimeCorrect + 1 else t.lifetimeCorrect }
    if row.isCurrent then
      { t1 with
        currentTotal := t1.currentTotal + 1,
        currentCorrect := if aligned then t1.currentCorrect + 1 else t1.currentCorrect }
    else t1

/-- `recomputeScoresForMember` from `src/server.js`, as the pure function
from the member's joined vote rows to the `(lifetime_score, current_score)`
pair it writes back (`null` when the respective total is zero). -/
def recomputeScoresForMember (rows : List ServerVoteRow) : Option ℚ × Option ℚ :=
  let t := rows.foldl serverTallyStep ⟨0, 0, 0, 0⟩
  ( if 0 < t.lifetimeTotal then
      some ((t.lifetimeCorrect : ℚ) / (t.lifetimeTotal : ℚ) * 100)
    else none,
    if 0 < t.currentTotal then
      some ((t.currentCorrect : ℚ) / (t.currentTotal : ℚ) * 100)
    else none )

/-! Concrete fixtures used by the witnesses and counterexamples. -/

/-- Fixture: aligned vote of weight 1 in the importance-weighting
scenario. -/
def c1VoteAligned : Vote :=
  { id := "V1", congress := 119, chamber := Chamber.House, date := "2025-01-01",
    category := CategoryId.TAXES_TRADE, afPosition := VoteChoice.YES,
    importanceWeight := 1 }

/-- Fixture: opposed vote of weight 2 in the importance-weighting
scenario. -/
def c1VoteOpposed : Vote :=
  { id := "V2", congress := 119, chamber := Chamber.House, date := "2025-01-02",
    category := CategoryId.TAXES_TRADE, afPosition := VoteChoice.YES,
    importanceWeight := 2 }

/-- Fixture: the member aligns on V1 and opposes on V2. -/
def c1Choices : List MemberVote :=
  [{ voteId := "V1", memberId := "M1", vote := VoteChoice.YES },
   { voteId := "V2", memberId := "M1", vote := VoteChoice.NO }]

/-- Fixture: a healthcare vote of weight 1 for the implicit-absence
scenario. -/
def c2Vote : Vote :=
  { id := "V3", congress := 119, chamber := Chamber.Senate, date := "2025-02-01",
    category := CategoryId.HEALTHCARE, afPosition := VoteChoice.YES,
    importanceWeight := 1 }

/-- Fixture: a choice record belonging to a different member. -/
def c2OtherChoice : MemberVote :=
  { voteId := "V3", memberId := "M2", vote := VoteChoice.NO }

/-- Fixture: healthcare vote for the renormalization scenario. -/
def c3VoteH : Vote :=
  { id := "V4", congress := 119, chamber := Chamber.Senate, date := "2025-03-01",
    category := CategoryId.HEALTHCARE, afPosition := VoteChoice.YES,
    importanceWeight := 1 }

/-- Fixture: insurance vote for the renormalization scenario. -/
def c3VoteI : Vote :=
  { id := "V5", congress := 119, chamber := Chamber.House, date := "2025-03-02",
    category := CategoryId.INSURANCE, afPosition := VoteChoice.NO,
    importanceWeight := 1 }

/-- Fixture: the member aligns on the healthcare vote and has no record on
the insurance vote. -/
def c3Choices : List MemberVote :=
  [{ voteId := "V4", memberId := "M3", vote := VoteChoice.YES }]

/-- Fixture: an immigration vote, so that every other category has an
empty selection. -/
def c4Vote : Vote :=
  { id := "V6", congress := 119, chamber := Chamber.House, date := "2025-04-01",
    category := CategoryId.IMMIGRATION, afPosition := VoteChoice.NO,
    importanceWeight := 1 }

/-- Fixture: a joined server row for a member who abstained on a bill the
organization supports. -/
def c5RowAbstain : ServerVoteRow :=
  { afPosition := some "America First", vote := "Abstained", isCurrent := true }

/-- Fixture: server row, member approved a supported bill. -/
def c5RowApproved : ServerVoteRow :=
  { afPosition := some "America First", vote := "Approved", isCurrent := false }

/-- Fixture: server row, member opposed a supported bill. -/
def c5RowOpposed : ServerVoteRow :=
  { afPosition := some "America First", vote := "Opposed", isCurrent := false }

/-- Fixture: engine-side vote matching the abstention scenario. -/
def c5Vote : Vote :=
  { id := "V7", congress := 119, chamber := Chamber.House, date := "2025-05-01",
    category := CategoryId.IMMIGRATION, afPosition := VoteChoice.YES,
    importanceWeight := 1 }

/-- Fixture: engine-side explicit Absent record matching `c5Vote`. -/
def c5AbstainChoice : MemberVote :=
  { voteId := "V7", memberId := "M5", vote := VoteChoice.ABSENT }

/-- Fixture: engine-side weight-1 vote of the weighting scenario. -/
def c5VoteA : Vote :=
  { id := "V8", congress := 119, chamber := Chamber.House, date := "2025-05-02",
    category := CategoryId.IMMIGRATION, afPosition := VoteChoice.YES,
    importanceWeight := 1 }

/-- Fixture: engine-side weight-2 vote of the weighting scenario. -/
def c5VoteB : Vote :=
  { id := "V9", congress := 119, chamber := Chamber.House, date := "2025-05-03",
    category := CategoryId.IMMIGRATION, afPosition := VoteChoice.YES,
    importanceWeight := 2 }

/-- Fixture: engine-side choices of the weighting scenario (align on the
weight-1 vote, oppose on the weight-2 vote). -/
def c5Choices : List MemberVote :=
  [{ voteId := "V8", memberId := "M5", vote := VoteChoice.YES },
   { voteId := "V9", memberId := "M5", vote := VoteChoice.NO }]

/-- Fixture: an immigration vote of congress 119, for the session-filter
claims. -/
def c6Vote119 : Vote :=
  { id := "V10", congress := 119, chamber := Chamber.Senate, date := "2025-06-01",
    category := CategoryId.IMMIGRATION, afPosition := VoteChoice.YES,
    importanceWeight := 1 }

/-- Fixture: a healthcare vote of congress 118, for the lifetime-versus-
session scenario. -/
def c6Vote118 : Vote :=
  { id := "V11", congress := 118, chamber := Chamber.Senate, date := "2023-06-01",
    category := CategoryId.HEALTHCARE, afPosition := VoteChoice.YES,
    importanceWeight := 1 }

/-- Fixture: a zero-weight taxes vote. -/
def c7VoteZero : Vote :=
  { id := "V12", congress := 119, chamber := Chamber.House, date := "2025-07-01",
    category := CategoryId.TAXES_TRADE, afPosition := VoteChoice.YES,
    importanceWeight := 0 }

/-- Fixture: a second zero-weight taxes vote. -/
def c7VoteZero2 : Vote :=
  { id := "V13", congress := 119, chamber := Chamber.House, date := "2025-07-02",
    category := CategoryId.TAXES_TRADE, afPosition := VoteChoice.NO,
    importanceWeight := 0 }

/-- Fixture: a weight-1 taxes vote alongside the zero-weight one. -/
def c7VoteOne : Vote :=
  { id := "V14", congress := 119, chamber := Chamber.House, date := "2025-07-03",
    category := CategoryId.TAXES_TRADE, afPosition := VoteChoice.YES,
    importanceWeight := 1 }

/-- Fixture: a foreign-aid vote with positive weight 3/2. -/
def c8Vote : Vote :=
  { id := "V15", congress := 119, chamber := Chamber.Senate, date := "2025-08-01",
    category := CategoryId.FOREIGN_AID, afPosition := VoteChoice.NO,
    importanceWeight := 3/2 }

/-- Fixture: the member opposes the foreign-aid vote. -/
def c8Choices : List MemberVote :=
  [{ voteId := "V15", memberId := "M8", vote := VoteChoice.YES }]

/-- Fixture: an insurance vote for the determinism witness. -/
def c9Vote : Vote :=
  { id := "V16", congress := 119, chamber := Chamber.House, date := "2025-09-01",
    category := CategoryId.INSURANCE, afPosition := VoteChoice.YES,
    importanceWeight := 1 }

/-- Fixture: choice for the determinism witness. -/
def c9Choices : List MemberVote :=
  [{ voteId := "V16", memberId := "M9", vote := VoteChoice.YES }]

/-- Fixture: an immigration vote voted on twice in the duplicate-record
scenario. -/
def c10Vote : Vote :=
  { id := "V17", congress := 119, chamber := Chamber.House, date := "2025-10-01",
    category := CategoryId.IMMIGRATION, afPosition := VoteChoice.YES,
    importanceWeight := 1 }

/-- Fixture: the first (earlier) duplicate record, a YES. -/
def c10First : MemberVote :=
  { voteId := "V17", memberId := "M10", vote := VoteChoice.YES }

/-- Fixture: the second (later) duplicate record, a NO. -/
def c10Second : MemberVote :=
  { voteId := "V17", memberId := "M10", vote := VoteChoice.NO }

/-! Helper lemmas. -/

/-- A left fold that only adds `g x` at each step computes the initial
value plus the sum of the mapped list. -/
theorem foldl_add_map_sum {α : Type} (g : α → ℚ) (l : List α) (a : ℚ) :
    l.foldl (fun acc x => acc + g x) a = a + (l.map g).sum := by
  induction l generalizing a with
  | nil => simp
  | cons x xs ih =>
    rw [List.foldl_cons, ih, List.map_cons, List.sum_cons]
    ring

/-- The implementation's point rubric coincides with the rubric as the
specification words it. -/
theorem getPoints_eq_claimPoints : getPoints = claimPoints := rfl

/-- The numerator accumulator computes the spec-side weighted-points sum. -/
theorem numeratorAcc_eq (m : String) (amv : List MemberVote) (votes : List Vote) :
    numeratorAcc m amv votes = sumWeightedPoints m amv votes := by
  unfold numeratorAcc sumWeightedPoints
  rw [foldl_add_map_sum, zero_add]
  rfl

/-- The denominator accumulator computes the spec-side weight sum. -/
theorem denominatorAcc_eq (votes : List Vote) :
    denominatorAcc votes = sumWeights votes := by
  unfold denominatorAcc sumWeights
  rw [foldl_add_map_sum, zero_add]
  simp

/-- On a non-empty selection with non-zero total weight,
`computeCategoryScore` returns exactly the spec's weighted average. -/
theorem computeCategoryScore_eq_formula (m : String) (c : CategoryId)
    (av : List Vote) (amv : List MemberVote) (f : Option Nat)
    (hne : selectedVotes c av f ≠ [])
    (hden : sumWeights (selectedVotes c av f) ≠ 0) :
    computeCategoryScore m c av amv f =
      some (sumWeightedPoints m amv (selectedVotes c av f) /
            sumWeights (selectedVotes c av f) * 100) := by
  have hlen : ¬ (selectedVotes c av f).length = 0 := by
    simpa [List.length_eq_zero] using hne
  have hden' : ¬ denominatorAcc (selectedVotes c av f) = 0 := by
    rw [denominatorAcc_eq]; exact hden
  unfold computeCategoryScore
  simp only [if_neg hlen, if_neg hden', numeratorAcc_eq, denominatorAcc_eq]
  rw [if_neg hden]

/-- Summing a function that is constant on the list multiplies the
constant by the length. -/
theorem sum_map_const {α : Type} (l : List α) (q : ℚ) (g : α → ℚ)
    (h : ∀ x ∈ l, g x = q) : (l.map g).sum = l.length * q := by
  induction l with
  | nil => simp
  | cons x xs ih =>
    rw [List.map_cons, List.sum_cons, h x (by simp),
      ih (fun y hy => h y (by simp [hy])), List.length_cons]
    push_cast
    ring

/-- The rubric never awards negative points. -/
theorem getPoints_nonneg (a b : VoteChoice) : 0 ≤ getPoints a b := by
  unfold getPoints ALIGN_POINTS OPPOSE_POINTS ABSENCE_POINTS
  split <;> norm_num
  split <;> norm_num

/-- The rubric never awards more than one point. -/
theorem getPoints_le_one (a b : VoteChoice) : getPoints a b ≤ 1 := by
  unfold getPoints ALIGN_POINTS OPPOSE_POINTS ABSENCE_POINTS
  split <;> norm_num
  split <;> norm_num

/-- Terms that vanish outside a filter can be dropped from a mapped sum. -/
theorem sum_map_filter_of_zero {α : Type} (p : α → Bool) (g : α → ℚ)
    (l : List α) (h : ∀ x ∈ l, p x = false → g x = 0) :
    ((l.filter p).map g).sum = (l.map g).sum := by
  induction l with
  | nil => simp
  | cons x xs ih =>
    have ih' := ih (fun y hy hpy => h y (by simp [hy]) hpy)
    by_cases hx : p x
    · rw [List.filter_cons_of_pos hx, List.map_cons, List.sum_cons,
        List.map_cons, List.sum_cons, ih']
    · rw [List.filter_cons_of_neg (by simpa using hx), List.map_cons,
        List.sum_cons, h x (by simp) (by simpa using hx), zero_add, ih']

/-- A lookup that already succeeds on the first record list is unchanged
by appending further records. -/
theorem lookupMemberVote_append_of_isSome (m : String)
    (mvs extra : List MemberVote) (vid : String)
    (h : (lookupMemberVote m mvs vid).isSome = true) :
    lookupMemberVote m (mvs ++ extra) vid = lookupMemberVote m mvs vid := by
  unfold lookupMemberVote at h ⊢
  rw [List.find?_append]
  cases hfind : List.find? (fun mv => mv.voteId == vid && mv.memberId == m) mvs with
  | none => rw [hfind] at h; simp at h
  | some r => simp [Option.or]

/-- When at least one category scored, the overall is the weighted average
renormalized over exactly the scored categories. -/
theorem overall_eq_renormalized (m : String) (av : List Vote)
    (amv : List MemberVote) (f : Option Nat)
    (hne : scoredCategories (perCategoryOf m av amv f) ≠ []) :
    (computeMemberAFScore m av amv f).overall =
      some (catWeightedSum (perCategoryOf m av amv f) /
            catTotalWeight (perCategoryOf m av amv f) * 100) := by
  have hlen : ¬ (categoriesList.filter
      (fun c => (computeCategoryScore m c av amv f).isSome)).length = 0 := by
    simpa [scoredCategories, perCategoryOf, List.length_eq_zero] using hne
  unfold computeMemberAFScore
  simp only [if_neg hlen, foldl_add_map_sum, zero_add]
  rfl

/-- When every category is NoData, the overall is NoData. -/
theorem overall_none_of_all_none (m : String) (av : List Vote)
    (amv : List MemberVote) (f : Option Nat)
    (h : ∀ cat, computeCategoryScore m cat av amv f = none) :
    (computeMemberAFScore m av amv f).overall = none := by
  unfold computeMemberAFScore
  simp [h, categoriesList]

/-- When only Healthcare and Insurance have data, the overall is their
plain average. -/
theorem overall_healthcare_insurance (m : String) (av : List Vote)
    (amv : List MemberVote) (f : Option Nat) (x y : ℚ)
    (hH : computeCategoryScore m CategoryId.HEALTHCARE av amv f = some x)
    (hI : computeCategoryScore m CategoryId.INSURANCE av amv f = some y)
    (hIm : computeCategoryScore m CategoryId.IMMIGRATION av amv f = none)
    (hFA : computeCategoryScore m CategoryId.FOREIGN_AID av amv f = none)
    (hTT : computeCategoryScore m CategoryId.TAXES_TRADE av amv f = none) :
    (computeMemberAFScore m av amv f).overall = some ((x + y) / 2) := by
  unfold computeMemberAFScore
  simp [categoriesList, hH, hI, hIm, hFA, hTT, CATEGORY_WEIGHTS]
  ring

/-! Claim theorems. -/

/-- Claim C1: whenever the selected vote subset is non-empty (and the
weights do not sum to zero, so the stated quotient is meaningful),
`computeCategoryScore` returns the sum over selected votes of
`points * importanceWeight`, divided by the sum of the importance
weights, times 100, with the points given by the stated rubric (1 on
alignment, 0 on the opposite definite choice, 0.25 on absence); in
particular one category with an aligned weight-1 vote and an opposed
weight-2 vote scores exactly `(1.0*1 + 0.0*2)/(1+2)*100`. -/
theorem C1_weighted_rubric_average :
    (∀ (m : String) (c : CategoryId) (av : List Vote) (amv : List MemberVote)
       (f : Option Nat),
       selectedVotes c av f ≠ [] →
       sumWeights (selectedVotes c av f) ≠ 0 →
       computeCategoryScore m c av amv f =
         some (sumWeightedPoints m amv (selectedVotes c av f) /
               sumWeights (selectedVotes c av f) * 100)) ∧
    computeCategoryScore "M1" CategoryId.TAXES_TRADE
        [c1VoteAligned, c1VoteOpposed] c1Choices none =
      some ((1 * 1 + 0 * 2) / (1 + 2) * 100) := by
  constructor
  · exact fun m c av amv f hne hden =>
      computeCategoryScore_eq_formula m c av amv f hne hden
  · simp [computeCategoryScore, selectedVotes, selectVote, numeratorAcc,
      denominatorAcc, votePoints, effectiveChoice, lookupMemberVote, getPoints,
      ALIGN_POINTS, OPPOSE_POINTS, ABSENCE_POINTS, c1VoteAligned, c1VoteOpposed,
      c1Choices]
    norm_num

/-- Witness for C1: the two-vote importance-weighting fixture satisfies
both hypotheses of the general statement, which then evaluates on it. -/
theorem C1_weighted_rubric_average_witness :
    computeCategoryScore "M1" CategoryId.TAXES_TRADE
        [c1VoteAligned, c1VoteOpposed] c1Choices none =
      some (sumWeightedPoints "M1" c1Choices
              (selectedVotes CategoryId.TAXES_TRADE
                [c1VoteAligned, c1VoteOpposed] none) /
            sumWeights (selectedVotes CategoryId.TAXES_TRADE
                [c1VoteAligned, c1VoteOpposed] none) * 100) :=
  C1_weighted_rubric_average.1 "M1" CategoryId.TAXES_TRADE
    [c1VoteAligned, c1VoteOpposed] c1Choices none
    (by simp [selectedVotes, selectVote, c1VoteAligned, c1VoteOpposed])
    (by simp [selectedVotes, selectVote, sumWeights, c1VoteAligned,
        c1VoteOpposed]; norm_num)

/-- Claim C2: a selected vote with no matching `(memberId, voteId)` record
is scored exactly like an explicit Absent choice (0.25 points), and a
member with zero recorded choices in a category that has at least one
vote, all of importance weight 1, receives the numeric score 25 rather
than the NoData sentinel. -/
theorem C2_missing_record_is_absent :
    (∀ (m vid : String) (amv : List MemberVote) (refPos : VoteChoice),
       lookupMemberVote m amv vid = none →
       getPoints refPos (effectiveChoice m amv vid) =
         getPoints refPos VoteChoice.ABSENT ∧
       getPoints refPos VoteChoice.ABSENT = 1/4) ∧
    (∀ (m : String) (c : CategoryId) (av : List Vote) (amv : List MemberVote)
       (f : Option Nat),
       (∀ r ∈ amv, r.memberId ≠ m) →
       selectedVotes c av f ≠ [] →
       (∀ v ∈ selectedVotes c av f, v.importanceWeight = 1) →
       computeCategoryScore m c av amv f = some 25) := by
  constructor
  · intro m vid amv refPos h
    constructor
    · unfold effectiveChoice
      rw [h]
    · simp [getPoints, ABSENCE_POINTS]
  · intro m c av amv f hmem hne hw
    have hlook : ∀ vid, lookupMemberVote m amv vid = none := by
      intro vid
      unfold lookupMemberVote
      rw [List.find?_eq_none]
      intro x hx
      simp only [Bool.and_eq_true, beq_iff_eq, not_and]
      intro _
      exact hmem x hx
    have hpts : ∀ v ∈ selectedVotes c av f,
        claimPoints v.afPosition (effectiveChoice m amv v.id) *
          v.importanceWeight = 1/4 := by
      intro v hv
      rw [hw v hv, mul_one]
      unfold effectiveChoice
      rw [hlook]
      simp [claimPoints]
    have hwts : sumWeights (selectedVotes c av f) =
        ((selectedVotes c av f).length : ℚ) := by
      unfold sumWeights
      rw [sum_map_const _ 1 _ hw, mul_one]
    have hn : ((selectedVotes c av f).length : ℚ) ≠ 0 := by
      have h0 : (selectedVotes c av f).length ≠ 0 := by
        simpa [List.length_eq_zero] using hne
      exact_mod_cast h0
    rw [computeCategoryScore_eq_formula m c av amv f hne (by rw [hwts]; exact hn)]
    unfold sumWeightedPoints
    rw [sum_map_const _ (1/4) _ hpts, hwts]
    congr 1
    field_simp
    ring

/-- Witness for C2: a member whose only nearby record belongs to a
different member scores 25 on a one-vote healthcare category. -/
theorem C2_missing_record_is_absent_witness :
    computeCategoryScore "M1" CategoryId.HEALTHCARE [c2Vote] [c2OtherChoice]
      none = some 25 :=
  C2_missing_record_is_absent.2 "M1" CategoryId.HEALTHCARE [c2Vote]
    [c2OtherChoice] none
    (by intro r hr; simp at hr; subst hr; simp [c2OtherChoice])
    (by simp [selectedVotes, selectVote, c2Vote])
    (by intro v hv; simp [selectedVotes, selectVote, c2Vote] at hv; subst hv;
        simp [c2Vote])

/-- Claim C3: the overall score is `Σ(categoryScore/100 * weight)` over
exactly the categories with a numeric score, divided by the sum of those
same weights, times 100 (renormalization, not zero-fill); if every one of
the five categories is NoData the overall is NoData; and if only
Healthcare and Insurance (weight 0.10 each) have data the overall is
`(healthcareScore + insuranceScore)/2`. -/
theorem C3_overall_renormalization :
    (∀ (m : String) (av : List Vote) (amv : List MemberVote) (f : Option Nat),
       scoredCategories (perCategoryOf m av amv f) ≠ [] →
       (computeMemberAFScore m av amv f).overall =
         some (catWeightedSum (perCategoryOf m av amv f) /
               catTotalWeight (perCategoryOf m av amv f) * 100)) ∧
    (∀ (m : String) (av : List Vote) (amv : List MemberVote) (f : Option Nat),
       (∀ cat, computeCategoryScore m cat av amv f = none) →
       (computeMemberAFScore m av amv f).overall = none) ∧
    (∀ (m : String) (av : List Vote) (amv : List MemberVote) (f : Option Nat)
       (x y : ℚ),
       computeCategoryScore m CategoryId.HEALTHCARE av amv f = some x →
       computeCategoryScore m CategoryId.INSURANCE av amv f = some y →
       computeCategoryScore m CategoryId.IMMIGRATION av amv f = none →
       computeCategoryScore m CategoryId.FOREIGN_AID av amv f = none →
       computeCategoryScore m CategoryId.TAXES_TRADE av amv f = none →
       (computeMemberAFScore m av amv f).overall = some ((x + y) / 2)) :=
  ⟨overall_eq_renormalized, overall_none_of_all_none,
   overall_healthcare_insurance⟩

/-- Witness for C3: a member aligned on the only healthcare vote (score
100) and absent on the only insurance vote (score 25), with the other
three categories empty, has overall `(100 + 25)/2`. -/
theorem C3_overall_renormalization_witness :
    (computeMemberAFScore "M3" [c3VoteH, c3VoteI] c3Choices none).overall =
      some ((100 + 25) / 2) :=
  C3_overall_renormalization.2.2 "M3" [c3VoteH, c3VoteI] c3Choices none 100 25
    (by
      simp [computeCategoryScore, selectedVotes, selectVote, numeratorAcc,
        denominatorAcc, votePoints, effectiveChoice, lookupMemberVote, getPoints,
        ALIGN_POINTS, OPPOSE_POINTS, ABSENCE_POINTS, c3VoteH, c3VoteI, c3Choices]
      try norm_num)
    (by
      simp [computeCategoryScore, selectedVotes, selectVote, numeratorAcc,
        denominatorAcc, votePoints, effectiveChoice, lookupMemberVote, getPoints,
        ALIGN_POINTS, OPPOSE_POINTS, ABSENCE_POINTS, c3VoteH, c3VoteI, c3Choices]
      try norm_num)
    (by simp [computeCategoryScore, selectedVotes, selectVote, c3VoteH, c3VoteI])
    (by simp [computeCategoryScore, selectedVotes, selectVote, c3VoteH, c3VoteI])
    (by simp [computeCategoryScore, selectedVotes, selectVote, c3VoteH, c3VoteI])

/-- Claim C4: when no vote in the catalog matches the requested category
(and the session filter, when provided), `computeCategoryScore` returns
the NoData sentinel, which is distinct from `some q` for every rational
`q` — in particular it is never the numeric score 0. -/
theorem C4_empty_selection_nodata (m : String) (c : CategoryId)
    (av : List Vote) (amv : List MemberVote) (f : Option Nat)
    (h : selectedVotes c av f = []) :
    computeCategoryScore m c av amv f = none ∧
    ∀ q : ℚ, computeCategoryScore m c av amv f ≠ some q := by
  have hnone : computeCategoryScore m c av amv f = none := by
    unfold computeCategoryScore
    simp [h]
  exact ⟨hnone, fun q hq => by rw [hnone] at hq; exact Option.noConfusion hq⟩

/-- Witness for C4: a catalog holding only an immigration vote selects
nothing for Taxes & Trade, so that category is NoData and in particular
not `some 0`. -/
theorem C4_empty_selection_nodata_witness :
    computeCategoryScore "M4" CategoryId.TAXES_TRADE [c4Vote] [] none = none ∧
    computeCategoryScore "M4" CategoryId.TAXES_TRADE [c4Vote] [] none ≠
      some 0 :=
  ⟨(C4_empty_selection_nodata "M4" CategoryId.TAXES_TRADE [c4Vote] [] none
      (by simp [selectedVotes, selectVote, c4Vote])).1,
   (C4_empty_selection_nodata "M4" CategoryId.TAXES_TRADE [c4Vote] [] none
      (by simp [selectedVotes, selectVote, c4Vote])).2 0⟩

/-- Claim C5 (divergence): the server-side cascading recompute does not
refine the scoring-engine contract.  A member whose only record is an
abstention on a bill with a definite reference position gets `null` from
`recomputeScoresForMember` (the row is skipped), while the engine
contract awards 0.25 partial credit and yields 25; and an aligned vote
plus an opposed vote of double importance weight gets the unweighted 50
from the server, while the engine contract yields 100/3. -/
theorem C5_recompute_diverges :
    recomputeScoresForMember [c5RowAbstain] = (none, none) ∧
    computeCategoryScore "M5" CategoryId.IMMIGRATION [c5Vote]
      [c5AbstainChoice] none = some 25 ∧
    recomputeScoresForMember [c5RowApproved, c5RowOpposed] =
      (some 50, none) ∧
    computeCategoryScore "M5" CategoryId.IMMIGRATION [c5VoteA, c5VoteB]
      c5Choices none = some (100 / 3) := by
  refine ⟨?_, ?_, ?_, ?_⟩
  · simp [recomputeScoresForMember, serverTallyStep, c5RowAbstain]
  · simp [computeCategoryScore, selectedVotes, selectVote, numeratorAcc,
      denominatorAcc, votePoints, effectiveChoice, lookupMemberVote, getPoints,
      ALIGN_POINTS, OPPOSE_POINTS, ABSENCE_POINTS, c5Vote, c5AbstainChoice]
    norm_num
  · simp [recomputeScoresForMember, serverTallyStep, c5RowApproved,
      c5RowOpposed]
    norm_num
  · simp [computeCategoryScore, selectedVotes, selectVote, numeratorAcc,
      denominatorAcc, votePoints, effectiveChoice, lookupMemberVote, getPoints,
      ALIGN_POINTS, OPPOSE_POINTS, ABSENCE_POINTS, c5VoteA, c5VoteB, c5Choices]
    norm_num

/-- Claim C6 counterexample: with the provided session filter value 0 the
selection keeps a vote of congress 119, which the claim says must be
excluded, and the category therefore scores 25 instead of NoData: the
JavaScript truthiness test `congressFilter &&` ignores a zero filter. -/
theorem C6_session_filter_counterexample :
    c6Vote119 ∈ selectedVotes CategoryId.IMMIGRATION [c6Vote119] (some 0) ∧
    c6Vote119.congress ≠ 0 ∧
    computeCategoryScore "M6" CategoryId.IMMIGRATION [c6Vote119] []
      (some 0) = some 25 := by
  refine ⟨?_, ?_, ?_⟩
  · simp [selectedVotes, selectVote, c6Vote119]
  · simp [c6Vote119]
  · simp [computeCategoryScore, selectedVotes, selectVote, numeratorAcc,
      denominatorAcc, votePoints, effectiveChoice, lookupMemberVote, getPoints,
      ALIGN_POINTS, OPPOSE_POINTS, ABSENCE_POINTS, c6Vote119]
    norm_num

/-- Claim C6 (amended): for every provided nonzero session filter value,
`computeCategoryScore` selects exactly the votes whose category matches
the requested category and whose session identifier equals the filter
value (a filter value of 0 is treated as if no filter were provided), and
applies this filter before the empty-subset check, so that a member's
session-filtered category score can be NoData while the unfiltered
lifetime score for the same category is numeric. -/
theorem C6_session_filter_amended (m : String) (c : CategoryId)
    (av : List Vote) (amv : List MemberVote) (fc : Nat) (hfc : fc ≠ 0) :
    selectedVotes c av (some fc) =
      av.filter (fun v => decide (v.category = c ∧ v.congress = fc)) ∧
    (selectedVotes c av (some fc) = [] →
      computeCategoryScore m c av amv (some fc) = none) ∧
    computeCategoryScore "M6" CategoryId.HEALTHCARE [c6Vote118] []
      (some 119) = none ∧
    computeCategoryScore "M6" CategoryId.HEALTHCARE [c6Vote118] [] none =
      some 25 := by
  refine ⟨?_, ?_, ?_, ?_⟩
  · apply List.filter_congr
    intro v _
    unfold selectVote
    by_cases hcat : v.category = c
    · by_cases hcon : v.congress = fc
      · simp [hcat, hcon]
      · simp [hcat, hcon, hfc]
    · simp [hcat]
  · intro h
    unfold computeCategoryScore
    simp [h]
  · simp [computeCategoryScore, selectedVotes, selectVote, c6Vote118]
  · simp [computeCategoryScore, selectedVotes, selectVote, numeratorAcc,
      denominatorAcc, votePoints, effectiveChoice, lookupMemberVote, getPoints,
      ALIGN_POINTS, OPPOSE_POINTS, ABSENCE_POINTS, c6Vote118]
    norm_num

/-- Witness for the amended C6: with the nonzero filter 119 the selection
is exactly the category-and-session filter, and the fixture member has
NoData for session 119 on healthcare while the lifetime healthcare score
is numeric. -/
theorem C6_session_filter_amended_witness :
    selectedVotes CategoryId.IMMIGRATION [c6Vote119] (some 119) =
      List.filter
        (fun v => decide (v.category = CategoryId.IMMIGRATION ∧
          v.congress = 119)) [c6Vote119] ∧
    computeCategoryScore "M6" CategoryId.HEALTHCARE [c6Vote118] []
      (some 119) = none ∧
    computeCategoryScore "M6" CategoryId.HEALTHCARE [c6Vote118] [] none =
      some 25 :=
  ⟨(C6_session_filter_amended "M6" CategoryId.IMMIGRATION [c6Vote119] [] 119
      (by norm_num)).1,
   (C6_session_filter_amended "M6" CategoryId.IMMIGRATION [c6Vote119] [] 119
      (by norm_num)).2.2.1,
   (C6_session_filter_amended "M6" CategoryId.IMMIGRATION [c6Vote119] [] 119
      (by norm_num)).2.2.2⟩

/-- Claim C7: a non-empty selection in which every vote has importance
weight 0 yields NoData; dropping the zero-weight votes changes neither
the numerator nor the denominator accumulator (they contribute nothing);
and a matching vote counts toward the subset-is-non-empty check no matter
its weight. -/
theorem C7_zero_weights :
    (∀ (m : String) (c : CategoryId) (av : List Vote) (amv : List MemberVote)
       (f : Option Nat),
       selectedVotes c av f ≠ [] →
       (∀ v ∈ selectedVotes c av f, v.importanceWeight = 0) →
       computeCategoryScore m c av amv f = none) ∧
    (∀ (m : String) (amv : List MemberVote) (votes : List Vote),
       numeratorAcc m amv
         (votes.filter (fun v => decide (v.importanceWeight ≠ 0))) =
         numeratorAcc m amv votes ∧
       denominatorAcc
         (votes.filter (fun v => decide (v.importanceWeight ≠ 0))) =
         denominatorAcc votes) ∧
    (∀ (c : CategoryId) (av : List Vote) (f : Option Nat) (v : Vote),
       v ∈ av → selectVote c f v = true → selectedVotes c av f ≠ []) := by
  refine ⟨?_, ?_, ?_⟩
  · intro m c av amv f hne hw
    have hden : denominatorAcc (selectedVotes c av f) = 0 := by
      rw [denominatorAcc_eq]
      unfold sumWeights
      rw [sum_map_const _ 0 _ hw, mul_zero]
    unfold computeCategoryScore
    simp [hden]
  · intro m amv votes
    constructor
    · rw [numeratorAcc_eq, numeratorAcc_eq]
      unfold sumWeightedPoints
      apply sum_map_filter_of_zero
      intro v _ hv
      have hv0 : v.importanceWeight = 0 := by simpa using hv
      rw [hv0, mul_zero]
    · rw [denominatorAcc_eq, denominatorAcc_eq]
      unfold sumWeights
      apply sum_map_filter_of_zero
      intro v _ hv
      simpa using hv
  · intro c av f v hmem hsel
    unfold selectedVotes
    exact List.ne_nil_of_mem (List.mem_filter.mpr ⟨hmem, hsel⟩)

/-- Witness for C7: two zero-weight taxes votes select a non-empty subset
yet score NoData; dropping a zero-weight vote from a mixed list leaves
the numerator accumulator unchanged. -/
theorem C7_zero_weights_witness :
    computeCategoryScore "M7" CategoryId.TAXES_TRADE
      [c7VoteZero, c7VoteZero2] [] none = none ∧
    numeratorAcc "M7" []
      (List.filter (fun v => decide (v.importanceWeight ≠ 0))
        [c7VoteZero, c7VoteOne]) =
      numeratorAcc "M7" [] [c7VoteZero, c7VoteOne] ∧
    selectedVotes CategoryId.TAXES_TRADE [c7VoteZero, c7VoteZero2] none ≠
      [] :=
  ⟨C7_zero_weights.1 "M7" CategoryId.TAXES_TRADE [c7VoteZero, c7VoteZero2]
      [] none
      (by simp [selectedVotes, selectVote, c7VoteZero, c7VoteZero2])
      (by
        intro v hv
        simp [selectedVotes, selectVote, c7VoteZero, c7VoteZero2] at hv
        rcases hv with h | h <;> subst h <;>
          simp [c7VoteZero, c7VoteZero2]),
   (C7_zero_weights.2.1 "M7" [] [c7VoteZero, c7VoteOne]).1,
   C7_zero_weights.2.2 CategoryId.TAXES_TRADE [c7VoteZero, c7VoteZero2] none
     c7VoteZero (by simp) (by simp [selectVote, c7VoteZero])⟩

/-- Claim C8: when every selected vote has positive importance weight,
any numeric score that `computeCategoryScore` returns lies in [0, 100]. -/
theorem C8_score_in_range (m : String) (c : CategoryId) (av : List Vote)
    (amv : List MemberVote) (f : Option Nat)
    (hw : ∀ v ∈ selectedVotes c av f, 0 < v.importanceWeight)
    (s : ℚ) (hs : computeCategoryScore m c av amv f = some s) :
    0 ≤ s ∧ s ≤ 100 := by
  by_cases hne : selectedVotes c av f = []
  · unfold computeCategoryScore at hs
    simp [hne] at hs
  · have hden : 0 < sumWeights (selectedVotes c av f) := by
      unfold sumWeights
      apply List.sum_pos
      · intro x hx
        rcases List.mem_map.mp hx with ⟨v, hv, rfl⟩
        exact hw v hv
      · simpa using hne
    have hnum_nonneg : 0 ≤ sumWeightedPoints m amv (selectedVotes c av f) := by
      unfold sumWeightedPoints
      apply List.sum_nonneg
      intro x hx
      rcases List.mem_map.mp hx with ⟨v, hv, rfl⟩
      exact mul_nonneg
        (getPoints_nonneg v.afPosition (effectiveChoice m amv v.id))
        (le_of_lt (hw v hv))
    have hnum_le : sumWeightedPoints m amv (selectedVotes c av f) ≤
        sumWeights (selectedVotes c av f) := by
      unfold sumWeightedPoints sumWeights
      apply List.sum_le_sum
      intro v hv
      calc claimPoints v.afPosition (effectiveChoice m amv v.id) *
            v.importanceWeight
          ≤ 1 * v.importanceWeight :=
            mul_le_mul_of_nonneg_right
              (getPoints_le_one v.afPosition (effectiveChoice m amv v.id))
              (le_of_lt (hw v hv))
        _ = v.importanceWeight := one_mul _
    rw [computeCategoryScore_eq_formula m c av amv f hne (ne_of_gt hden)] at hs
    have hsval : s = sumWeightedPoints m amv (selectedVotes c av f) /
        sumWeights (selectedVotes c av f) * 100 := (Option.some_inj.mp hs).symm
    subst hsval
    constructor
    · exact mul_nonneg (div_nonneg hnum_nonneg (le_of_lt hden)) (by norm_num)
    · have hle1 : sumWeightedPoints m amv (selectedVotes c av f) /
          sumWeights (selectedVotes c av f) ≤ 1 :=
        (div_le_one hden).mpr hnum_le
      calc sumWeightedPoints m amv (selectedVotes c av f) /
            sumWeights (selectedVotes c av f) * 100
          ≤ 1 * 100 := mul_le_mul_of_nonneg_right hle1 (by norm_num)
        _ = 100 := one_mul _

/-- Witness for C8: a member opposing a single weight-3/2 foreign-aid vote
scores 0, which the range theorem places in [0, 100]. -/
theorem C8_score_in_range_witness :
    computeCategoryScore "M8" CategoryId.FOREIGN_AID [c8Vote] c8Choices
      none = some 0 ∧ ((0 : ℚ) ≤ 0 ∧ (0 : ℚ) ≤ 100) := by
  have heval : computeCategoryScore "M8" CategoryId.FOREIGN_AID [c8Vote]
      c8Choices none = some 0 := by
    simp [computeCategoryScore, selectedVotes, selectVote, numeratorAcc,
      denominatorAcc, votePoints, effectiveChoice, lookupMemberVote, getPoints,
      ALIGN_POINTS, OPPOSE_POINTS, ABSENCE_POINTS, c8Vote, c8Choices]
  refine ⟨heval, C8_score_in_range "M8" CategoryId.FOREIGN_AID [c8Vote]
    c8Choices none ?_ 0 heval⟩
  intro v hv
  simp [selectedVotes, selectVote, c8Vote] at hv
  subst hv
  simp [c8Vote]
  try norm_num

/-- Claim C9: two invocations of `computeMemberAFScore` on identical,
unmutated inputs produce identical results — the function is a pure
computation of its four arguments, with no hidden state, randomness, or
clock. -/
theorem C9_deterministic (m m' : String) (av av' : List Vote)
    (amv amv' : List MemberVote) (f f' : Option Nat)
    (h1 : m = m') (h2 : av = av') (h3 : amv = amv') (h4 : f = f') :
    computeMemberAFScore m av amv f = computeMemberAFScore m' av' amv' f' := by
  subst h1
  subst h2
  subst h3
  subst h4
  rfl

/-- Witness for C9: a concrete double invocation agrees with itself. -/
theorem C9_deterministic_witness :
    computeMemberAFScore "M9" [c9Vote] c9Choices none =
      computeMemberAFScore "M9" [c9Vote] c9Choices none :=
  C9_deterministic "M9" "M9" [c9Vote] [c9Vote] c9Choices c9Choices none none
    rfl rfl rfl rfl

/-- Claim C10: with duplicate `(memberId, voteId)` records in the choice
catalog, scoring uses the first matching record in list order — a record
preceded by no match is the one looked up, and any records appended after
a catalog that already covers every selected vote leave the category
score unchanged. -/
theorem C10_first_match_wins :
    (∀ (m vid : String) (pre : List MemberVote) (r : MemberVote)
       (post : List MemberVote),
       pre.find? (fun x => x.voteId == vid && x.memberId == m) = none →
       r.voteId = vid → r.memberId = m →
       effectiveChoice m (pre ++ r :: post) vid = r.vote) ∧
    (∀ (m : String) (c : CategoryId) (av : List Vote)
       (mvs extra : List MemberVote) (f : Option Nat),
       (∀ v ∈ selectedVotes c av f,
         (lookupMemberVote m mvs v.id).isSome = true) →
       computeCategoryScore m c av (mvs ++ extra) f =
         computeCategoryScore m c av mvs f) := by
  constructor
  · intro m vid pre r post hpre hr1 hr2
    unfold effectiveChoice lookupMemberVote
    rw [List.find?_append, hpre]
    simp [List.find?_cons, hr1, hr2]
  · intro m c av mvs extra f h
    have hnum : numeratorAcc m (mvs ++ extra) (selectedVotes c av f) =
        numeratorAcc m mvs (selectedVotes c av f) := by
      rw [numeratorAcc_eq, numeratorAcc_eq]
      unfold sumWeightedPoints
      congr 1
      apply List.map_congr_left
      intro v hv
      unfold effectiveChoice
      rw [lookupMemberVote_append_of_isSome m mvs extra v.id (h v hv)]
    simp only [computeCategoryScore]
    rw [hnum]

/-- Witness for C10: with a YES record followed by a duplicate NO record
for the same member and vote, the lookup yields the first record's YES and
the category score matches the one computed without the duplicate. -/
theorem C10_first_match_wins_witness :
    effectiveChoice "M10" [c10First, c10Second] "V17" = VoteChoice.YES ∧
    computeCategoryScore "M10" CategoryId.IMMIGRATION [c10Vote]
        [c10First, c10Second] none =
      computeCategoryScore "M10" CategoryId.IMMIGRATION [c10Vote] [c10First]
        none :=
  ⟨C10_first_match_wins.1 "M10" "V17" [] c10First [c10Second]
     (by simp) (by simp [c10First]) (by simp [c10First]),
   C10_first_match_wins.2 "M10" CategoryId.IMMIGRATION [c10Vote] [c10First]
     [c10Second] none
     (by
       intro v hv
       simp [selectedVotes, selectVote, c10Vote] at hv
       subst hv
       simp [lookupMemberVote, c10First, c10Vote])⟩

end AFScorecard
